import Mathlib

/-!
Verification of the safety-gating and audit protocol of the
Cyber-Security Assistant service (file `Cyber-Security Assistant.py`).

The service mediates between a text-generation backend and a caller who
must authorize destructive remediation actions.  We shallowly embed the
core decision logic: the destructiveness classifier `_is_destructive`,
the confirmation hook `_ask_confirmation`, the audit logger
`_log_recommendation`, the single-item endpoint `recommend`, and the
batch endpoint `batch`.

Python strings are modelled as `List Char` (`PyStr`), so that every
operation is a structural recursion the kernel can evaluate.  The
generation backend (an external collaborator that may fail) is modelled
as an explicit input of type `Except PyStr PyStr`: `Except.error msg`
models the `except Exception` branch around the model call, and
`Except.ok content` models a successful generation returning `content`.
Raising `HTTPException(status_code, detail)` is modelled by returning
`Except.error` of an `HTTPException` value; the audit-log side effects
of one call are collected in a returned `List LogLine`.
-/

/-- Python strings, modelled as lists of characters. -/
abbrev PyStr := List Char

/-- Converts a Lean string literal to the `PyStr` model. -/
def str (s : String) : PyStr := s.data

/-- The whitespace characters recognized by the Python `str.split` and
`str.strip` methods with no arguments (core ASCII set). -/
def isPySpace (c : Char) : Bool :=
  c = ' ' || c = '\t' || c = '\n' || c = '\r' || c = '\x0b' || c = '\x0c'

/-- Models the Python `str.lower` method (ASCII case folding). -/
def pyLower (s : PyStr) : PyStr := s.map Char.toLower

/-- Accumulator worker for `pySplit`: walks the string, collecting the
current (reversed) token in `acc` and emitting it at each whitespace
boundary, dropping empty tokens as Python `split()` does. -/
def pySplitGo (s : List Char) (acc : List Char) : List PyStr :=
  match s with
  | [] => if acc = [] then [] else [acc.reverse]
  | c :: cs =>
      if isPySpace c then
        if acc = [] then pySplitGo cs [] else acc.reverse :: pySplitGo cs []
      else pySplitGo cs (c :: acc)

/-- Models the Python `str.split` method with no arguments: the list of
maximal whitespace-free runs, in order, with no empty tokens. -/
def pySplit (s : PyStr) : List PyStr := pySplitGo s []

/-- Models the Python `str.strip` method with no arguments: removes
leading and trailing whitespace. -/
def pyStrip (s : PyStr) : PyStr :=
  ((s.dropWhile isPySpace).reverse.dropWhile isPySpace).reverse

/-- The fixed vocabulary `destructive_terms` of `_is_destructive`. -/
def destructive_terms : List PyStr :=
  [str "delete", str "remove", str "kill", str "uninstall", str "erase"]

/-- Translation of `_is_destructive`: lowercase the recommendation,
split it into whitespace-delimited words, and test whether the set of
words meets `destructive_terms` (`bool(words & destructive_terms)`).
Set intersection being nonempty is list intersection being nonempty. -/
def is_destructive (recommendation : PyStr) : Bool :=
  !((pySplit (pyLower recommendation)).inter destructive_terms).isEmpty

/-- The structured entry `_log_recommendation` serializes to the audit
log: `{threat_id, recommendation, destructive, approved, notes}`.  The
`approved` and `notes` parameters are `Optional` in the source. -/
structure DecisionRecord where
  threat_id : PyStr
  recommendation : PyStr
  destructive : Bool
  approved : Option Bool
  notes : Option PyStr
  deriving Repr, DecidableEq

/-- One line of the audit log file.  `_log_recommendation` emits a
structured `record` line via `logger.info(json.dumps(entry))`; the
service also emits unstructured `warning` and `error` lines through the
same logger. -/
inductive LogLine where
  | record (entry : DecisionRecord)
  | warning (msg : PyStr)
  | error (msg : PyStr)
  deriving Repr, DecidableEq

/-- Translation of `_log_recommendation`: builds the structured audit
line for one decision. -/
def log_recommendation (threat_id : PyStr) (recommendation : PyStr)
    (destructive : Bool) (approved : Option Bool) (notes : Option PyStr) : LogLine :=
  LogLine.record
    { threat_id := threat_id, recommendation := recommendation,
      destructive := destructive, approved := approved, notes := notes }

/-- Translation of `_ask_confirmation`: logs a warning and refuses
automatically (returns `false`); the caller should instead set
`confirm := true` in the request body. -/
def ask_confirmation (action : PyStr) (threat_id : PyStr) : Bool × LogLine :=
  (false,
   LogLine.warning
     (str "Destructive action requested for threat " ++ threat_id ++ str ": "
       ++ action ++ str ". Awaiting manual confirmation."))

/-- Translation of the pydantic `Threat` model.  The open
`additional_info` map is omitted: it is only serialized into the model
prompt, and the generation backend is modelled as an oracle input. -/
structure Threat where
  threat_id : PyStr
  file_path : Option PyStr := none
  sha256 : Option PyStr := none
  description : Option PyStr := none
  deriving Repr, DecidableEq

/-- Translation of the pydantic `RecommendationResponse` model (the
source also declares `RecommendResponse` with the identical fields; the
batch endpoint copies one into the other field by field). -/
structure RecommendationResponse where
  threat_id : PyStr
  recommendation : PyStr
  destructive : Bool
  approved : Bool
  notes : Option PyStr
  deriving Repr, DecidableEq

/-- The identical twin of `RecommendationResponse` in the source. -/
abbrev RecommendResponse := RecommendationResponse

/-- Translation of the pydantic `RecommendRequest` model; `confirm`
defaults to `false`. -/
structure RecommendRequest where
  threat : Threat
  confirm : Bool := false
  deriving Repr, DecidableEq

/-- Models `raise HTTPException(status_code=..., detail=...)`. -/
structure HTTPException where
  status_code : Nat
  detail : PyStr
  deriving Repr, DecidableEq

/-- Translation of the `/recommend` endpoint body.  `genResult` is the
outcome of the external model call (`ollama_client.chat.completions...`
followed by `.strip()` on success): `Except.error exc` models the
`except Exception` branch, which logs an error line and raises
HTTP 500.  On success the text is stripped, classified, and gated: a
destructive recommendation without `confirm` consults
`_ask_confirmation` (which always refuses), logs the denial record, and
raises HTTP 400; otherwise the approved record is logged and the
response returned. -/
def recommend (request : RecommendRequest) (genResult : Except PyStr PyStr) :
    Except HTTPException RecommendResponse × List LogLine :=
  match genResult with
  | Except.error exc =>
      (Except.error
         { status_code := 500, detail := str "Model generation failed: " ++ exc },
       [LogLine.error
          (str "Model error for " ++ request.threat.threat_id ++ str ": " ++ exc)])
  | Except.ok content =>
      let recommendation := pyStrip content
      let destructive := is_destructive recommendation
      if destructive && !request.confirm then
        match ask_confirmation recommendation request.threat.threat_id with
        | (approved, warnLine) =>
          if approved then
            -- dead in the source: `_ask_confirmation` never grants approval;
            -- kept so the control flow mirrors the fall-through after the hook
            (Except.ok
               { threat_id := request.threat.threat_id,
                 recommendation := recommendation, destructive := destructive,
                 approved := approved, notes := none },
             [warnLine,
              log_recommendation request.threat.threat_id recommendation destructive
                (some approved) none])
          else
            (Except.error
               { status_code := 400,
                 detail := str "Destructive recommendation requires explicit confirmation." },
             [warnLine,
              log_recommendation request.threat.threat_id recommendation destructive
                (some approved)
                (some (str "Destructive action denied – user / caller must confirm."))])
      else
        (Except.ok
           { threat_id := request.threat.threat_id,
             recommendation := recommendation, destructive := destructive,
             approved := true, notes := none },
         [log_recommendation request.threat.threat_id recommendation destructive
            (some true) none])

/-- The per-item situation the batch loop can face: a successful
generation, a generation-backend failure (surfaced by `recommend` as
HTTP 500 and caught by the `except HTTPException` handler), or any
other unexpected fault inside the per-item `try` block (caught by the
`except Exception` handler). -/
inductive GenOutcome where
  | ok (content : PyStr)
  | genError (msg : PyStr)
  | unexpected (msg : PyStr)
  deriving Repr, DecidableEq

/-- The batch loop body around the reused single-item logic: it calls
`recommend` with `confirm := false` and converts an `HTTPException`
into a placeholder entry with a warning line, continuing the loop. -/
def batchCall (threat : Threat) (genResult : Except PyStr PyStr) :
    RecommendationResponse × List LogLine :=
  match recommend { threat := threat, confirm := false } genResult with
  | (Except.ok resp, log) => (resp, log)
  | (Except.error exc, log) =>
      ({ threat_id := threat.threat_id, recommendation := str "",
         destructive := false, approved := false,
         notes := some (str "Failed: " ++ exc.detail) },
       log ++ [LogLine.warning
          (str "Batch threat " ++ threat.threat_id ++ str " failed: " ++ exc.detail)])

/-- Processing of one batch item, including the `except Exception`
handler that converts any unexpected fault into a placeholder entry
with an error line. -/
def batchItem (threat : Threat) (outcome : GenOutcome) :
    RecommendationResponse × List LogLine :=
  match outcome with
  | GenOutcome.ok content => batchCall threat (Except.ok content)
  | GenOutcome.genError msg => batchCall threat (Except.error msg)
  | GenOutcome.unexpected exc =>
      ({ threat_id := threat.threat_id, recommendation := str "",
         destructive := false, approved := false,
         notes := some (str "Unexpected error: " ++ exc) },
       [LogLine.error
          (str "Unexpected error on threat " ++ threat.threat_id ++ str ": " ++ exc)])

/-- Translation of the `/batch` endpoint body: fold `batchItem` over
the input sequence, in order, collecting one report entry per input
threat and concatenating the audit-log lines.  Each input threat is
paired with the backend outcome its processing encounters. -/
def batch (items : List (Threat × GenOutcome)) :
    List RecommendationResponse × List LogLine :=
  match items with
  | [] => ([], [])
  | (threat, outcome) :: rest =>
      let (entry, itemLog) := batchItem threat outcome
      let (entries, restLog) := batch rest
      (entry :: entries, itemLog ++ restLog)

/-- Tests whether a log line is a structured `DecisionRecord` line. -/
def isRecordLine : LogLine → Bool
  | LogLine.record _ => true
  | _ => false

/-- The number of structured `DecisionRecord` lines in a log. -/
def recordCount (log : List LogLine) : Nat := log.countP isRecordLine

/-- Models the audit sink under the semantics of the Python `logging`
module: `Logger.info` inside `_log_recommendation` catches any emit
failure internally (`Handler.handleError`), so `recommend` executes
identically whether or not each append reached the audit file; a line
whose append failed simply does not persist.  `persists` says which
emitted lines were successfully appended. -/
def recommendWithSink (persists : LogLine → Bool) (request : RecommendRequest)
    (genResult : Except PyStr PyStr) :
    Except HTTPException RecommendResponse × List LogLine :=
  match recommend request genResult with
  | (result, log) => (result, log.filter persists)

instance {ε α : Type} [DecidableEq ε] [DecidableEq α] : DecidableEq (Except ε α) := fun a b =>
  match a, b with
  | Except.ok x, Except.ok y =>
      if h : x = y then Decidable.isTrue (by rw [h])
      else Decidable.isFalse (by intro hc; cases hc; exact h rfl)
  | Except.error x, Except.error y =>
      if h : x = y then Decidable.isTrue (by rw [h])
      else Decidable.isFalse (by intro hc; cases hc; exact h rfl)
  | Except.ok _, Except.error _ => Decidable.isFalse (by intro hc; cases hc)
  | Except.error _, Except.ok _ => Decidable.isFalse (by intro hc; cases hc)

example : is_destructive (str "Please DELETE the file") = true := by decide
example : is_destructive (str "Quarantine the host") = false := by decide
example : (recommend { threat := { threat_id := str "t1" } } (Except.ok (str " scan it "))).1 =
    Except.ok { threat_id := str "t1", recommendation := str "scan it",
                destructive := false, approved := true, notes := none } := by decide

/-- Helper: on a generation-backend failure, `recommend` raises HTTP 500 and
logs a single unstructured error line. -/
theorem recommend_error_eq (request : RecommendRequest) (msg : PyStr) :
    recommend request (Except.error msg) =
      (Except.error
         { status_code := 500, detail := str "Model generation failed: " ++ msg },
       [LogLine.error
          (str "Model error for " ++ request.threat.threat_id ++ str ": " ++ msg)]) := rfl

/-- Helper: a closed-form characterization of `recommend` on a successful
generation, obtained by evaluating the always-refusing `_ask_confirmation`. -/
theorem recommend_ok_eq (request : RecommendRequest) (content : PyStr) :
    recommend request (Except.ok content) =
      if is_destructive (pyStrip content) && !request.confirm then
        (Except.error
           { status_code := 400,
             detail := str "Destructive recommendation requires explicit confirmation." },
         [LogLine.warning
            (str "Destructive action requested for threat " ++ request.threat.threat_id
              ++ str ": " ++ pyStrip content ++ str ". Awaiting manual confirmation."),
          log_recommendation request.threat.threat_id (pyStrip content)
            (is_destructive (pyStrip content)) (some false)
            (some (str "Destructive action denied – user / caller must confirm."))])
      else
        (Except.ok
           { threat_id := request.threat.threat_id, recommendation := pyStrip content,
             destructive := is_destructive (pyStrip content), approved := true,
             notes := none },
         [log_recommendation request.threat.threat_id (pyStrip content)
            (is_destructive (pyStrip content)) (some true) none]) := rfl

/-- Helper: `is_destructive` returns `true` exactly when some
whitespace-delimited token of the lowercased input is a destructive term. -/
theorem is_destructive_eq_true_iff (s : PyStr) :
    is_destructive s = true ↔
      ∃ w, w ∈ pySplit (pyLower s) ∧ w ∈ destructive_terms := by
  simp only [is_destructive, List.inter, Bool.not_eq_true',
    List.isEmpty_eq_false_iff_exists_mem]
  constructor
  · rintro ⟨w, hw⟩
    have h1 : w ∈ pySplit (pyLower s) := List.mem_of_mem_filter hw
    have h2 := List.of_mem_filter hw
    exact ⟨w, h1, by simpa using h2⟩
  · rintro ⟨w, h1, h2⟩
    exact ⟨w, List.mem_filter_of_mem h1 (by simpa using h2)⟩

/-- Helper: the classifier only reads the lowercased text. -/
theorem is_destructive_lower_congr (s t : PyStr) (h : pyLower s = pyLower t) :
    is_destructive s = is_destructive t := by
  simp only [is_destructive, h]

/-- Helper: the report entry produced for one batch item, in closed form:
every failure yields the placeholder with `approved := false`,
`destructive := false` and an empty recommendation, and a successful
non-destructive recommendation is approved. -/
theorem batchItem_fst_eq (threat : Threat) (outcome : GenOutcome) :
    (batchItem threat outcome).1 =
      match outcome with
      | GenOutcome.ok content =>
          if is_destructive (pyStrip content) then
            { threat_id := threat.threat_id, recommendation := str "",
              destructive := false, approved := false,
              notes := some
                (str "Failed: Destructive recommendation requires explicit confirmation.") }
          else
            { threat_id := threat.threat_id, recommendation := pyStrip content,
              destructive := false, approved := true, notes := none }
      | GenOutcome.genError msg =>
          { threat_id := threat.threat_id, recommendation := str "",
            destructive := false, approved := false,
            notes := some (str "Failed: Model generation failed: " ++ msg) }
      | GenOutcome.unexpected msg =>
          { threat_id := threat.threat_id, recommendation := str "",
            destructive := false, approved := false,
            notes := some (str "Unexpected error: " ++ msg) } := by
  cases outcome with
  | ok content =>
      simp only [batchItem, batchCall, recommend_ok_eq]
      cases hd : is_destructive (pyStrip content) with
      | false => simp [hd]
      | true =>
          simp [hd]
          decide
  | genError msg => rfl
  | unexpected msg => rfl

/-- Helper: the batch report is the in-order map of `batchItem` over the
input items. -/
theorem batch_fst_eq (items : List (Threat × GenOutcome)) :
    (batch items).1 = items.map (fun item => (batchItem item.1 item.2).1) := by
  induction items with
  | nil => rfl
  | cons item rest ih =>
      obtain ⟨threat, outcome⟩ := item
      simp only [batch, List.map_cons]
      rcases hbi : batchItem threat outcome with ⟨entry, itemLog⟩
      rcases hbr : batch rest with ⟨entries, restLog⟩
      have h1 : entry = (batchItem threat outcome).1 := by rw [hbi]
      have h2 : entries = (batch rest).1 := by rw [hbr]
      simp [h1, h2, ih]

/-- Helper: every batch report entry keeps the threat id of its input. -/
theorem batchItem_threat_id (threat : Threat) (outcome : GenOutcome) :
    (batchItem threat outcome).1.threat_id = threat.threat_id := by
  rw [batchItem_fst_eq]
  cases outcome with
  | ok content => cases hd : is_destructive (pyStrip content) <;> simp [hd]
  | genError msg => rfl
  | unexpected msg => rfl

/-- Claim C1: for every DecisionRecord the single-item operation returns to
its caller, `approved = true` implies that either the recommendation was
classified non-destructive or the request carried `confirm = true` at
submission time. -/
theorem C1_approved_implies_safe_or_confirmed (request : RecommendRequest)
    (genResult : Except PyStr PyStr) (resp : RecommendResponse) (log : List LogLine)
    (hok : recommend request genResult = (Except.ok resp, log))
    (happ : resp.approved = true) :
    resp.destructive = false ∨ request.confirm = true := by
  cases genResult with
  | error msg =>
      rw [recommend_error_eq] at hok
      simp at hok
  | ok content =>
      rw [recommend_ok_eq] at hok
      cases hd : is_destructive (pyStrip content) with
      | false =>
          left
          simp [hd] at hok
          rw [← hok.1]
      | true =>
          cases hc : request.confirm with
          | true => right; rfl
          | false => simp [hd, hc] at hok

/-- Witness for C1: a destructive recommendation approved because the
caller confirmed; the invariant holds by the confirmation flag. -/
theorem C1_witness :
    ({ threat_id := str "malware-001", recommendation := str "delete it",
       destructive := true, approved := true, notes := none }
        : RecommendResponse).destructive = false
    ∨ ({ threat := { threat_id := str "malware-001" }, confirm := true }
        : RecommendRequest).confirm = true :=
  C1_approved_implies_safe_or_confirmed
    { threat := { threat_id := str "malware-001" }, confirm := true }
    (Except.ok (str "delete it"))
    { threat_id := str "malware-001", recommendation := str "delete it",
      destructive := true, approved := true, notes := none }
    [log_recommendation (str "malware-001") (str "delete it") true (some true) none]
    (by decide) (by decide)

/-- Claim C2: a destructive recommendation submitted without confirmation is
always denied: the operation logs the denial record (`approved = false`, a
denial note) and raises HTTP 400, while a generation-backend failure raises
HTTP 500 — two distinct response codes. -/
theorem C2_unconfirmed_destructive_denied (request : RecommendRequest) (content : PyStr)
    (hd : is_destructive (pyStrip content) = true)
    (hc : request.confirm = false) :
    (recommend request (Except.ok content) =
      (Except.error
         { status_code := 400,
           detail := str "Destructive recommendation requires explicit confirmation." },
       [LogLine.warning
          (str "Destructive action requested for threat " ++ request.threat.threat_id
            ++ str ": " ++ pyStrip content ++ str ". Awaiting manual confirmation."),
        log_recommendation request.threat.threat_id (pyStrip content) true (some false)
          (some (str "Destructive action denied – user / caller must confirm."))]))
    ∧ ∀ msg : PyStr,
        (recommend request (Except.error msg)).1 =
          Except.error
            { status_code := 500, detail := str "Model generation failed: " ++ msg } := by
  constructor
  · rw [recommend_ok_eq]
    simp [hd, hc]
  · intro msg
    rw [recommend_error_eq]

/-- Witness for C2: a concrete destructive recommendation without
confirmation is denied with HTTP 400. -/
theorem C2_witness :
    recommend { threat := { threat_id := str "malware-001" } }
        (Except.ok (str "delete it")) =
      (Except.error
         { status_code := 400,
           detail := str "Destructive recommendation requires explicit confirmation." },
       [LogLine.warning
          (str "Destructive action requested for threat malware-001: delete it. Awaiting manual confirmation."),
        log_recommendation (str "malware-001") (str "delete it") true (some false)
          (some (str "Destructive action denied – user / caller must confirm."))]) :=
  (C2_unconfirmed_destructive_denied { threat := { threat_id := str "malware-001" } }
    (str "delete it") (by decide) rfl).1

/-- Claim C3 counterexample: a generation-backend failure writes no
structured DecisionRecord to the audit log at all — the only line logged
for the attempt is an unstructured error line — so the claimed failure
record (destructive = false, approved = false, failure note) is absent. -/
theorem C3_counterexample :
    recordCount
        (recommend { threat := { threat_id := str "malware-001" } }
          (Except.error (str "timeout"))).2 = 0
    ∧ (recommend { threat := { threat_id := str "malware-001" } }
          (Except.error (str "timeout"))).2 =
        [LogLine.error (str "Model error for malware-001: timeout")] := by decide

/-- Claim C3 (amended): when generation succeeds, exactly one structured
DecisionRecord is logged before the operation returns or raises — one
denial record on the deny path, one approval record otherwise; a
generation-backend failure logs no DecisionRecord, only an unstructured
error line. -/
theorem C3_one_record_when_generated (request : RecommendRequest)
    (genResult : Except PyStr PyStr) :
    recordCount (recommend request genResult).2 =
      match genResult with
      | Except.ok _ => 1
      | Except.error _ => 0 := by
  cases genResult with
  | error msg => rfl
  | ok content =>
      rw [recommend_ok_eq]
      cases hd : (is_destructive (pyStrip content) && !request.confirm) with
      | false =>
          simp [hd, recordCount, isRecordLine, log_recommendation,
            List.countP_cons, List.countP_nil]
      | true =>
          simp [hd, recordCount, isRecordLine, log_recommendation,
            List.countP_cons, List.countP_nil]

/-- Claim C4: a non-destructive recommendation is auto-approved with no
confirmation required, for any value of the `confirm` flag: the operation
returns `approved = true` and logs the approval record. -/
theorem C4_non_destructive_auto_approved (request : RecommendRequest) (content : PyStr)
    (hd : is_destructive (pyStrip content) = false) :
    recommend request (Except.ok content) =
      (Except.ok
         { threat_id := request.threat.threat_id, recommendation := pyStrip content,
           destructive := false, approved := true, notes := none },
       [log_recommendation request.threat.threat_id (pyStrip content) false
          (some true) none]) := by
  rw [recommend_ok_eq]
  simp [hd]

/-- Witness for C4: the same non-destructive recommendation is approved
both with `confirm = false` and with `confirm = true`. -/
theorem C4_witness :
    recommend { threat := { threat_id := str "t1" }, confirm := false }
        (Except.ok (str "Run a full scan")) =
      (Except.ok
         { threat_id := str "t1", recommendation := str "Run a full scan",
           destructive := false, approved := true, notes := none },
       [log_recommendation (str "t1") (str "Run a full scan") false (some true) none])
    ∧ recommend { threat := { threat_id := str "t1" }, confirm := true }
        (Except.ok (str "Run a full scan")) =
      (Except.ok
         { threat_id := str "t1", recommendation := str "Run a full scan",
           destructive := false, approved := true, notes := none },
       [log_recommendation (str "t1") (str "Run a full scan") false (some true) none]) :=
  ⟨C4_non_destructive_auto_approved
      { threat := { threat_id := str "t1" }, confirm := false }
      (str "Run a full scan") (by decide),
   C4_non_destructive_auto_approved
      { threat := { threat_id := str "t1" }, confirm := true }
      (str "Run a full scan") (by decide)⟩

/-- Claim C5: a destructive recommendation submitted with `confirm = true`
is approved: the operation returns `approved = true` and logs the approval
record. -/
theorem C5_confirmed_destructive_approved (request : RecommendRequest) (content : PyStr)
    (hd : is_destructive (pyStrip content) = true)
    (hc : request.confirm = true) :
    recommend request (Except.ok content) =
      (Except.ok
         { threat_id := request.threat.threat_id, recommendation := pyStrip content,
           destructive := true, approved := true, notes := none },
       [log_recommendation request.threat.threat_id (pyStrip content) true
          (some true) none]) := by
  rw [recommend_ok_eq]
  simp [hd, hc]

/-- Witness for C5: a concrete destructive recommendation with
confirmation is approved. -/
theorem C5_witness :
    recommend { threat := { threat_id := str "malware-002" }, confirm := true }
        (Except.ok (str "Kill the process and delete the binary.")) =
      (Except.ok
         { threat_id := str "malware-002",
           recommendation := str "Kill the process and delete the binary.",
           destructive := true, approved := true, notes := none },
       [log_recommendation (str "malware-002")
          (str "Kill the process and delete the binary.") true (some true) none]) :=
  C5_confirmed_destructive_approved
    { threat := { threat_id := str "malware-002" }, confirm := true }
    (str "Kill the process and delete the binary.") (by decide) rfl

/-- Claim C6: the batch loop submits every item with `confirm = false`, so
no batch report entry is ever an approved destructive recommendation; yet
the same generated text submitted alone with `confirm = true` is approved
as destructive. -/
theorem C6_batch_never_approves_destructive :
    (∀ (items : List (Threat × GenOutcome)) (entry : RecommendationResponse),
      entry ∈ (batch items).1 → entry.approved = true → entry.destructive = false)
    ∧ ∀ (threat : Threat) (content : PyStr),
        is_destructive (pyStrip content) = true →
        (batchItem threat (GenOutcome.ok content)).1.approved = false
        ∧ (recommend { threat := threat, confirm := true } (Except.ok content)).1 =
            Except.ok
              { threat_id := threat.threat_id, recommendation := pyStrip content,
                destructive := true, approved := true, notes := none } := by
  constructor
  · intro items entry hmem happ
    rw [batch_fst_eq] at hmem
    obtain ⟨⟨threat, outcome⟩, hitem, hentry⟩ := List.mem_map.1 hmem
    rw [batchItem_fst_eq] at hentry
    cases outcome with
    | ok content =>
        cases hd : is_destructive (pyStrip content) with
        | true =>
            simp [hd] at hentry
            rw [← hentry] at happ
            simp at happ
        | false =>
            simp [hd] at hentry
            rw [← hentry]
    | genError msg =>
        rw [← hentry] at happ
        simp at happ
    | unexpected msg =>
        rw [← hentry] at happ
        simp at happ
  · intro threat content hd
    refine ⟨?_, ?_⟩
    · rw [batchItem_fst_eq]
      simp [hd]
    · rw [recommend_ok_eq]
      simp [hd]

/-- Witness for C6: an approved entry of a concrete batch is
non-destructive, and a concrete destructive text denied in batch mode is
refused there. -/
theorem C6_witness :
    ({ threat_id := str "t1", recommendation := str "Run a full scan",
       destructive := false, approved := true, notes := none }
        : RecommendationResponse).destructive = false
    ∧ (batchItem { threat_id := str "t2" } (GenOutcome.ok (str "kill it"))).1.approved
        = false :=
  ⟨C6_batch_never_approves_destructive.1
      [({ threat_id := str "t1" }, GenOutcome.ok (str "Run a full scan"))]
      { threat_id := str "t1", recommendation := str "Run a full scan",
        destructive := false, approved := true, notes := none }
      (by decide) rfl,
   (C6_batch_never_approves_destructive.2 { threat_id := str "t2" }
      (str "kill it") (by decide)).1⟩

/-- Claim C7: the batch report has exactly one entry per input threat, in
input order, with matching threat ids at every index; every per-item
failure — generation failure, unexpected fault, or denial of a destructive
recommendation — yields a placeholder entry with `approved = false` and a
descriptive note at that index, and the loop continues past it. -/
theorem C7_batch_report_alignment :
    (∀ items : List (Threat × GenOutcome), (batch items).1.length = items.length)
    ∧ (∀ (items : List (Threat × GenOutcome)) (i : Nat),
        ((batch items).1[i]?).map (fun entry => entry.threat_id)
          = (items[i]?).map (fun item => item.1.threat_id))
    ∧ (∀ (threat : Threat) (msg : PyStr),
        (batchItem threat (GenOutcome.genError msg)).1 =
          { threat_id := threat.threat_id, recommendation := str "",
            destructive := false, approved := false,
            notes := some (str "Failed: Model generation failed: " ++ msg) })
    ∧ (∀ (threat : Threat) (msg : PyStr),
        (batchItem threat (GenOutcome.unexpected msg)).1 =
          { threat_id := threat.threat_id, recommendation := str "",
            destructive := false, approved := false,
            notes := some (str "Unexpected error: " ++ msg) })
    ∧ ∀ (threat : Threat) (content : PyStr),
        is_destructive (pyStrip content) = true →
        (batchItem threat (GenOutcome.ok content)).1 =
          { threat_id := threat.threat_id, recommendation := str "",
            destructive := false, approved := false,
            notes := some
              (str "Failed: Destructive recommendation requires explicit confirmation.") } := by
  refine ⟨?_, ?_, ?_, ?_, ?_⟩
  · intro items
    rw [batch_fst_eq, List.length_map]
  · intro items i
    rw [batch_fst_eq, List.getElem?_map]
    cases h : items[i]? with
    | none => rfl
    | some item => simp [batchItem_threat_id]
  · intro threat msg
    rw [batchItem_fst_eq]
  · intro threat msg
    rw [batchItem_fst_eq]
  · intro threat content hd
    rw [batchItem_fst_eq]
    simp [hd]

/-- Witness for C7 on a concrete three-item batch whose middle item hits a
generation timeout: three entries, aligned ids, placeholder in the middle. -/
theorem C7_witness :
    (batch [({ threat_id := str "a" }, GenOutcome.ok (str "Run a scan")),
            ({ threat_id := str "b" }, GenOutcome.genError (str "timeout")),
            ({ threat_id := str "c" }, GenOutcome.ok (str "Reboot the host"))]).1.length = 3
    ∧ (batchItem { threat_id := str "b" } (GenOutcome.genError (str "timeout"))).1 =
        { threat_id := str "b", recommendation := str "",
          destructive := false, approved := false,
          notes := some (str "Failed: Model generation failed: timeout") }
    ∧ (batchItem { threat_id := str "d" } (GenOutcome.ok (str "erase the disk"))).1 =
        { threat_id := str "d", recommendation := str "",
          destructive := false, approved := false,
          notes := some
            (str "Failed: Destructive recommendation requires explicit confirmation.") } :=
  ⟨C7_batch_report_alignment.1
      [({ threat_id := str "a" }, GenOutcome.ok (str "Run a scan")),
       ({ threat_id := str "b" }, GenOutcome.genError (str "timeout")),
       ({ threat_id := str "c" }, GenOutcome.ok (str "Reboot the host"))],
   (C7_batch_report_alignment.2.2.1 { threat_id := str "b" } (str "timeout")).trans
     (by decide),
   (C7_batch_report_alignment.2.2.2.2 { threat_id := str "d" } (str "erase the disk")
      (by decide)).trans (by decide)⟩

/-- Claim C8 counterexample: with every audit append failing (nothing
persists to the log), the single-item operation still reports the decision
as `approved = true` to the caller — the log-write failure is swallowed by
the logging layer, not treated as fatal for the decision. -/
theorem C8_counterexample :
    recommendWithSink (fun _ => false) { threat := { threat_id := str "malware-001" } }
        (Except.ok (str "Run a full scan.")) =
      (Except.ok
         { threat_id := str "malware-001", recommendation := str "Run a full scan.",
           destructive := false, approved := true, notes := none },
       []) := by decide

/-- Claim C8 (amended): audit-append failure is invisible to the decision
logic — the Python logging layer swallows emit errors inside
`_log_recommendation` — so the result reported to the caller, approval
included, is identical whether or not each append succeeded. -/
theorem C8_result_independent_of_sink (persists : LogLine → Bool)
    (request : RecommendRequest) (genResult : Except PyStr PyStr) :
    (recommendWithSink persists request genResult).1 = (recommend request genResult).1 := by
  unfold recommendWithSink
  rcases recommend request genResult with ⟨result, log⟩
  rfl

/-- Claim C9: the classifier is a total function that returns `false` on
the empty string, returns `true` exactly when some whitespace-delimited
token of the lowercased input is one of the fixed destructive terms, and
is case-insensitive: any two inputs with the same lowercasing classify
identically. -/
theorem C9_classifier_characterization :
    is_destructive (str "") = false
    ∧ (∀ s : PyStr, is_destructive s = true ↔
        ∃ w, w ∈ pySplit (pyLower s) ∧ w ∈ destructive_terms)
    ∧ ∀ s t : PyStr, pyLower s = pyLower t → is_destructive s = is_destructive t :=
  ⟨by decide, is_destructive_eq_true_iff, is_destructive_lower_congr⟩

/-- Witness for C9: two case variants of the same text classify the same
way, and that way is destructive. -/
theorem C9_witness :
    is_destructive (str "KiLl the process") = is_destructive (str "kill THE process")
    ∧ is_destructive (str "KiLl the process") = true :=
  ⟨C9_classifier_characterization.2.2 (str "KiLl the process")
      (str "kill THE process") (by decide),
   by decide⟩

/-- Claim C10: every failed batch item — a generation failure, an
unexpected fault, or the denial of a destructive recommendation — is
recorded as a placeholder with `destructive = false` and an empty
recommendation string, so the batch report never records
`destructive = true` for a failed item even when the underlying generated
text was destructive. -/
theorem C10_placeholder_never_destructive :
    (∀ (threat : Threat) (outcome : GenOutcome),
      (batchItem threat outcome).1.approved = false →
      (batchItem threat outcome).1.destructive = false
        ∧ (batchItem threat outcome).1.recommendation = str "")
    ∧ ∀ (threat : Threat) (content : PyStr),
        is_destructive (pyStrip content) = true →
        (batchItem threat (GenOutcome.ok content)).1.destructive = false
        ∧ (batchItem threat (GenOutcome.ok content)).1.recommendation = str "" := by
  constructor
  · intro threat outcome happ
    rw [batchItem_fst_eq] at happ ⊢
    cases outcome with
    | ok content =>
        cases hd : is_destructive (pyStrip content) with
        | true => simp [hd]
        | false => simp [hd] at happ
    | genError msg => exact ⟨rfl, rfl⟩
    | unexpected msg => exact ⟨rfl, rfl⟩
  · intro threat content hd
    rw [batchItem_fst_eq]
    exact ⟨by simp [hd], by simp [hd]⟩

/-- Witness for C10: a concrete failed item and a concrete denied
destructive item are both recorded non-destructive with empty text. -/
theorem C10_witness :
    ((batchItem { threat_id := str "t9" } (GenOutcome.genError (str "boom"))).1.destructive
        = false
      ∧ (batchItem { threat_id := str "t9" }
          (GenOutcome.genError (str "boom"))).1.recommendation = str "")
    ∧ (batchItem { threat_id := str "t9" }
        (GenOutcome.ok (str "erase the disk"))).1.destructive = false :=
  ⟨C10_placeholder_never_destructive.1 { threat_id := str "t9" }
      (GenOutcome.genError (str "boom")) (by decide),
   (C10_placeholder_never_destructive.2 { threat_id := str "t9" }
      (str "erase the disk") (by decide)).1⟩
